import Mathlib

/-!
Verification of the offset-calculator print-job cost estimator.

The development shallowly embeds the repository's cost-calculation core:

* `calculateCostPerSheet` — the Paper Cost Matrix leaf function
  (src/data/paperMatrix.ts, the flat/slope revision; the `custom` branch is
  modelled from the spec, see its doc comment);
* `calculateTotalCost` — the latest breakdown-engine revision
  (src/utils/calculatorUtils.ts: custom sheet sizes, area-aware lamination,
  flat `fullPrintingCost` press cost);
* `calculateTotalCostHourly` — the earlier breakdown-engine revision
  (hourly press cost, flat per-unit lamination).

Numbers are embedded as rationals (`ℚ`): the source does exact arithmetic on
JS numbers and every constant involved is a small decimal.  Optional numeric
fields of the job record are embedded as `ℚ` with `0` playing the role of the
absent/falsy value, matching how every use in the source first tests the field
for JS truthiness; optional reference fields are embedded as `Option`.
-/

namespace OffsetCalc

/-- `gsmPriceMode` of a `PrintingJob`: the three paper-pricing strategies. -/
inductive GsmPriceMode where
  | flat
  | slope
  | custom
deriving DecidableEq, Repr

/-- `laminationType` of a `PrintingJob` (src/models/PrintingJob.ts). -/
inductive LaminationType where
  | none
  | matt
  | gloss
  | thermalMatt
  | thermalGloss
deriving DecidableEq, Repr

/-- A standard sheet size (src/models/PrintingJob.ts, `SheetSize`).
Width and height are millimeters. -/
structure SheetSize where
  id : String
  name : String
  width : ℚ
  height : ℚ
deriving DecidableEq, Repr

/-- A paper-type catalog entry (src/models/PrintingJob.ts, `PaperType`);
only the fields the engine reads. -/
structure PaperType where
  id : String
  costPerSheet : ℚ
deriving DecidableEq, Repr

/-- A binding-option catalog entry (src/models/PrintingJob.ts,
`BindingOption`); only the fields the engine reads. -/
structure BindingOption where
  id : String
  baseCost : ℚ
  perUnitCost : ℚ
deriving DecidableEq, Repr

/-- `LaminationCosts` (src/utils/settingsStore.ts): cost per 100 square
inches for each lamination type. -/
structure LaminationCosts where
  matt : ℚ
  gloss : ℚ
  thermalMatt : ℚ
  thermalGloss : ℚ
deriving DecidableEq, Repr

/-- Measurement unit preference held by the settings store; the engine never
reads it. -/
inductive MeasurementUnit where
  | mm
  | inch
deriving DecidableEq, Repr

/-- The snapshot of the settings store that `calculateTotalCost` reads via
`useSettingsStore.getState()` (src/utils/settingsStore.ts).  The embedding
passes the snapshot explicitly, so the store reads become field projections. -/
structure SettingsStore where
  paperTypes : List PaperType
  bindingOptions : List BindingOption
  measurementUnit : MeasurementUnit
  laminationCosts : LaminationCosts
deriving DecidableEq, Repr

/-- `DEFAULT_LAMINATION_COSTS` (src/utils/settingsStore.ts). -/
def DEFAULT_LAMINATION_COSTS : LaminationCosts :=
  { matt := 1/4, gloss := 7/20, thermalMatt := 13/20, thermalGloss := 13/20 }

/-- `SHEET_SIZES` (src/data/printingOptions.ts): the fixed catalog of
standard sizes, ending with the `custom` sentinel of zero dimensions. -/
def SHEET_SIZES : List SheetSize :=
  [ { id := "a6", name := "A6", width := 105, height := 148 },
    { id := "a5", name := "A5", width := 148, height := 210 },
    { id := "a4", name := "A4", width := 210, height := 297 },
    { id := "a3", name := "A3", width := 297, height := 420 },
    { id := "sra3", name := "SRA3", width := 320, height := 450 },
    { id := "custom", name := "Custom Size", width := 0, height := 0 } ]

/-- `GSM_OPTIONS` (src/data/paperMatrix.ts): the fixed GSM ladder. -/
def GSM_OPTIONS : List ℚ :=
  [70, 80, 90, 100, 120, 130, 150, 170, 200, 220, 250, 300, 350]

/-- The `PrintingJob` record (src/models/PrintingJob.ts).  This is the union
of the two model revisions present in the repository: the later revision has
`fullPrintingCost` (read by the latest engine) where the earlier revision has
`pressHourlyRate`, `estimatedPrintRunTime` and `makeReadyTime` (read by the
earlier engine).  Optional numeric fields use `0` for the absent value, and
`customCostMatrix` is a finite map from GSM to cost per kg. -/
structure PrintingJob where
  quantity : ℚ
  numberOfColors : ℚ
  isDoubleSided : Bool
  sheetSizeId : String
  customSheetWidth : ℚ
  customSheetHeight : ℚ
  paperTypeId : String
  paperGsm : ℚ
  paperSizeId : Option String
  gsmPriceMode : GsmPriceMode
  paperCostPerKg : ℚ
  paperCostIncreasePerGsm : ℚ
  customCostMatrix : Option (List (ℚ × ℚ))
  designSetupFee : ℚ
  plateCost : ℚ
  proofingCharges : ℚ
  fullPrintingCost : ℚ
  pressHourlyRate : ℚ
  estimatedPrintRunTime : ℚ
  makeReadyTime : ℚ
  wastagePercentage : ℚ
  foldingRequired : Bool
  numberOfFolds : ℚ
  cuttingRequired : Bool
  numberOfCuts : ℚ
  bindingOptionId : Option String
  laminationType : LaminationType
  isDoubleSidedLamination : Bool
  embossingRequired : Bool
  foilingRequired : Bool
  packagingDeliveryCost : ℚ
  taxPercentage : ℚ
  discountPercentage : ℚ
  rushFeePercentage : ℚ

/-- The `CostBreakdown` output record (src/models/PrintingJob.ts). -/
structure CostBreakdown where
  materialCost : ℚ
  prePressSetupCost : ℚ
  pressCost : ℚ
  finishingCost : ℚ
  additionalCosts : ℚ
  subtotal : ℚ
  taxAmount : ℚ
  discount : ℚ
  rushFee : ℚ
  grandTotal : ℚ
  costPerUnit : ℚ
deriving DecidableEq, Repr

/-- Key lookup in a finite GSM → cost-per-kg map (the JS object
`customCostMatrix` keyed by the GSM value). -/
def matrixLookup : List (ℚ × ℚ) → ℚ → Option ℚ
  | [], _ => Option.none
  | (k, v) :: rest, g => if g = k then Option.some v else matrixLookup rest g

/-- The effective cost per kg in `custom` mode.

Modelled from the spec: the paperMatrix.ts revision implementing the `custom`
pricing mode is not among the captured sources — both captured revisions of
`calculateCostPerSheet` support only `flat`/`slope`, while `calculateTotalCost`
and the matrix selector pass a `customCostMatrix` argument for it.  Per the
spec: effective = `customMatrix[gsm]` if present, else fall back to
`costPerKg`. -/
def customEffectiveCostPerKg (customMatrix : Option (List (ℚ × ℚ)))
    (gsm costPerKg : ℚ) : ℚ :=
  match customMatrix with
  | Option.none => costPerKg
  | Option.some m =>
    match matrixLookup m gsm with
    | Option.none => costPerKg
    | Option.some c => c

/-- `calculateCostPerSheet` (src/data/paperMatrix.ts).  The `flat` and
`slope` branches are translated from the source; the `custom` branch uses the
spec-modelled `customEffectiveCostPerKg` (see its doc comment). -/
def calculateCostPerSheet (width height gsm costPerKg : ℚ)
    (gsmPriceMode : GsmPriceMode) (paperCostIncreasePerGsm : ℚ)
    (baseGsm : ℚ) (customCostMatrix : Option (List (ℚ × ℚ))) : ℚ :=
  let widthInMeters := width / 1000
  let heightInMeters := height / 1000
  let areaInSqMeters := widthInMeters * heightInMeters
  let weightInKg := areaInSqMeters * gsm / 1000
  let adjustedCostPerKg :=
    match gsmPriceMode with
    | GsmPriceMode.flat => costPerKg
    | GsmPriceMode.slope =>
      if gsm > baseGsm then
        costPerKg + (gsm - baseGsm) * paperCostIncreasePerGsm
      else costPerKg
    | GsmPriceMode.custom =>
      customEffectiveCostPerKg customCostMatrix gsm costPerKg
  weightInKg * adjustedCostPerKg

/-- The binding option selected by the job, looked up in the settings
snapshot (src/utils/calculatorUtils.ts, `selectedBinding`). -/
def selectedBinding (job : PrintingJob) (settings : SettingsStore) :
    Option BindingOption :=
  match job.bindingOptionId with
  | Option.none => Option.none
  | Option.some bid => settings.bindingOptions.find? (fun b => b.id == bid)

/-- Width and height of a standard catalog size looked up by id, as assigned
by the engine's `SHEET_SIZES.find` branch (src/utils/calculatorUtils.ts,
lines 58-65). -/
def standardSheetDims (sid : String) : Option (ℚ × ℚ) :=
  match SHEET_SIZES.find? (fun s => s.id == sid) with
  | Option.none => Option.none
  | Option.some s => Option.some (s.width, s.height)

/-- The width/height assignment of the engine
(src/utils/calculatorUtils.ts, lines 49-65 and the identical block in the
lamination branch): an explicit custom width/height pair when the size
selector is `custom` and both are truthy, otherwise the selected standard
size's dimensions. -/
def rawSheetDims (job : PrintingJob) : Option (ℚ × ℚ) :=
  if job.sheetSizeId = "custom" ∧ job.customSheetWidth ≠ 0 ∧
      job.customSheetHeight ≠ 0 then
    Option.some (job.customSheetWidth, job.customSheetHeight)
  else
    match job.paperSizeId with
    | Option.none => Option.none
    | Option.some sid => standardSheetDims sid

/-- The dimensions that survive the engine's final `if (width && height)`
truthiness guard (src/utils/calculatorUtils.ts, lines 68 and 150), which also
absorbs the zero-dimension `custom` catalog sentinel. -/
def resolvedSheetDims (job : PrintingJob) : Option (ℚ × ℚ) :=
  match rawSheetDims job with
  | Option.none => Option.none
  | Option.some (w, h) =>
    if w ≠ 0 ∧ h ≠ 0 then Option.some (w, h) else Option.none

/-- The cost per sheet the engine uses (src/utils/calculatorUtils.ts,
lines 46-90): the matrix calculation when GSM is set, dimensions resolve and
the mode's parameters pass the `hasValidParams` truthiness checks; otherwise
the legacy per-sheet cost of the selected paper type (zero if none). -/
def jobCostPerSheet (job : PrintingJob) (settings : SettingsStore) : ℚ :=
  let base : ℚ :=
    match settings.paperTypes.find? (fun p => p.id == job.paperTypeId) with
    | Option.some p => p.costPerSheet
    | Option.none => 0
  if job.paperGsm ≠ 0 then
    match resolvedSheetDims job with
    | Option.some (w, h) =>
      if (job.gsmPriceMode = GsmPriceMode.flat ∧ job.paperCostPerKg ≠ 0)
          ∨ (job.gsmPriceMode = GsmPriceMode.slope ∧ job.paperCostPerKg ≠ 0
              ∧ job.paperCostIncreasePerGsm ≠ 0)
          ∨ (job.gsmPriceMode = GsmPriceMode.custom
              ∧ job.customCostMatrix.isSome) then
        calculateCostPerSheet w h job.paperGsm
          (if job.paperCostPerKg = 0 then 150 else job.paperCostPerKg)
          job.gsmPriceMode job.paperCostIncreasePerGsm 80 job.customCostMatrix
      else base
    | Option.none => base
  else base

/-- Folding contribution to finishing cost
(src/utils/calculatorUtils.ts, line 108). -/
def foldingCost (job : PrintingJob) : ℚ :=
  if job.foldingRequired then job.numberOfFolds * job.quantity * 1 else 0

/-- Cutting contribution to finishing cost
(src/utils/calculatorUtils.ts, line 113). -/
def cuttingCost (job : PrintingJob) : ℚ :=
  if job.cuttingRequired then job.numberOfCuts * 500 else 0

/-- Binding contribution to finishing cost
(src/utils/calculatorUtils.ts, line 118). -/
def bindingCost (job : PrintingJob) (settings : SettingsStore) : ℚ :=
  match selectedBinding job settings with
  | Option.some b => b.baseCost + b.perUnitCost * job.quantity
  | Option.none => 0

/-- The stored settings value for a lamination type; `none` has no entry in
the `LaminationCosts` record, which JS reads as `undefined` (falsy, here 0). -/
def laminationStoredCost (lc : LaminationCosts) : LaminationType → ℚ
  | LaminationType.none => 0
  | LaminationType.matt => lc.matt
  | LaminationType.gloss => lc.gloss
  | LaminationType.thermalMatt => lc.thermalMatt
  | LaminationType.thermalGloss => lc.thermalGloss

/-- The per-100-square-inch lamination rate the engine uses
(src/utils/calculatorUtils.ts, lines 126-131): the settings value via the
JS `||` operator, with hardcoded per-type fallback constants when the stored
value is falsy. -/
def laminationRate (lc : LaminationCosts) (t : LaminationType) : ℚ :=
  if laminationStoredCost lc t ≠ 0 then laminationStoredCost lc t
  else
    match t with
    | LaminationType.matt => 1/4
    | LaminationType.gloss => 7/20
    | LaminationType.thermalMatt => 13/20
    | LaminationType.thermalGloss => 13/20
    | LaminationType.none => 7/20

/-- The sheet area in square inches used by the lamination branch
(src/utils/calculatorUtils.ts, lines 149-152): zero when no dimensions
resolve. -/
def laminationAreaSqIn (job : PrintingJob) : ℚ :=
  match resolvedSheetDims job with
  | Option.some (w, h) => (w / (127/5)) * (h / (127/5))
  | Option.none => 0

/-- Lamination contribution to finishing cost in the latest engine revision
(src/utils/calculatorUtils.ts, lines 121-155): area-aware formula. -/
def laminationCost (job : PrintingJob) (settings : SettingsStore) : ℚ :=
  if job.laminationType ≠ LaminationType.none then
    laminationRate settings.laminationCosts job.laminationType * job.quantity
      * (if job.isDoubleSidedLamination then 2 else 1)
      * laminationAreaSqIn job / 100
  else 0

/-- Embossing contribution to finishing cost
(src/utils/calculatorUtils.ts, line 159). -/
def embossingCost (job : PrintingJob) : ℚ :=
  if job.embossingRequired then 100 + (1/5) * job.quantity else 0

/-- Foiling contribution to finishing cost
(src/utils/calculatorUtils.ts, line 163). -/
def foilingCost (job : PrintingJob) : ℚ :=
  if job.foilingRequired then 150 + (3/10) * job.quantity else 0

/-- The accumulated finishing cost of the latest engine revision
(src/utils/calculatorUtils.ts, lines 104-167): each `+=` of the source is one
addend, in source order, ending with the packaging/delivery amount. -/
def finishingCostOf (job : PrintingJob) (settings : SettingsStore) : ℚ :=
  foldingCost job + cuttingCost job + bindingCost job settings
    + laminationCost job settings + embossingCost job + foilingCost job
    + job.packagingDeliveryCost

/-- `calculateTotalCost` (src/utils/calculatorUtils.ts, lines 28-196): the
latest breakdown-engine revision.  The settings-store snapshot read through
`useSettingsStore.getState()` is passed explicitly. -/
def calculateTotalCost (job : PrintingJob) (settings : SettingsStore) :
    CostBreakdown :=
  let sheetsNeeded := job.quantity * (if job.isDoubleSided then 1 else 1)
    * (1 + job.wastagePercentage / 100)
  let costPerSheet := jobCostPerSheet job settings
  let materialCost := sheetsNeeded * costPerSheet
  let plateCostTotal := job.plateCost * job.numberOfColors
    * (if job.isDoubleSided then 2 else 1)
  let prePressSetupCost := job.designSetupFee + plateCostTotal
    + job.proofingCharges
  let pressCost := job.fullPrintingCost
  let finishingCost := finishingCostOf job settings
  let subtotal := materialCost + prePressSetupCost + pressCost + finishingCost
  let taxAmount := subtotal * (job.taxPercentage / 100)
  let discount := subtotal * (job.discountPercentage / 100)
  let rushFee := subtotal * (job.rushFeePercentage / 100)
  let grandTotal := subtotal + taxAmount - discount + rushFee
  let costPerUnit := if job.quantity > 0 then grandTotal / job.quantity else 0
  { materialCost := materialCost
    prePressSetupCost := prePressSetupCost
    pressCost := pressCost
    finishingCost := finishingCost
    additionalCosts := job.packagingDeliveryCost
    subtotal := subtotal
    taxAmount := taxAmount
    discount := discount
    rushFee := rushFee
    grandTotal := grandTotal
    costPerUnit := costPerUnit }

/-- Lamination contribution in the earlier engine revision
(src/utils/AuthContext.tsx embedded calculator, lines 357-362): flat per-unit
formula, `matt` at 10 and every other selected type at 12, ignoring area. -/
def laminationCostFlatRev (job : PrintingJob) : ℚ :=
  if job.laminationType ≠ LaminationType.none then
    (if job.laminationType = LaminationType.matt then 10 else 12)
      * job.quantity * (if job.isDoubleSidedLamination then 2 else 1)
  else 0

/-- Finishing cost of the earlier engine revision: as the latest one but with
the flat per-unit lamination formula. -/
def finishingCostOfHourly (job : PrintingJob) (settings : SettingsStore) : ℚ :=
  foldingCost job + cuttingCost job + bindingCost job settings
    + laminationCostFlatRev job + embossingCost job + foilingCost job
    + job.packagingDeliveryCost

/-- `calculateTotalCost` of the earlier revision (src/utils/AuthContext.tsx
embedded calculator, lines 264-403): identical to the latest revision except
for the hourly press-cost model and the flat per-unit lamination formula. -/
def calculateTotalCostHourly (job : PrintingJob) (settings : SettingsStore) :
    CostBreakdown :=
  let sheetsNeeded := job.quantity * (if job.isDoubleSided then 1 else 1)
    * (1 + job.wastagePercentage / 100)
  let costPerSheet := jobCostPerSheet job settings
  let materialCost := sheetsNeeded * costPerSheet
  let plateCostTotal := job.plateCost * job.numberOfColors
    * (if job.isDoubleSided then 2 else 1)
  let prePressSetupCost := job.designSetupFee + plateCostTotal
    + job.proofingCharges
  let totalPressTime := job.makeReadyTime + job.estimatedPrintRunTime
  let pressCost := totalPressTime * job.pressHourlyRate
  let finishingCost := finishingCostOfHourly job settings
  let subtotal := materialCost + prePressSetupCost + pressCost + finishingCost
  let taxAmount := subtotal * (job.taxPercentage / 100)
  let discount := subtotal * (job.discountPercentage / 100)
  let rushFee := subtotal * (job.rushFeePercentage / 100)
  let grandTotal := subtotal + taxAmount - discount + rushFee
  let costPerUnit := if job.quantity > 0 then grandTotal / job.quantity else 0
  { materialCost := materialCost
    prePressSetupCost := prePressSetupCost
    pressCost := pressCost
    finishingCost := finishingCost
    additionalCosts := job.packagingDeliveryCost
    subtotal := subtotal
    taxAmount := taxAmount
    discount := discount
    rushFee := rushFee
    grandTotal := grandTotal
    costPerUnit := costPerUnit }

/-- The spec's semantic typing of a job specification (§3): positive
quantity, non-negative percentages, non-negative currency amounts and rates,
including the GSM, dimension and pricing-mode parameters and the values of a
supplied custom cost matrix. -/
def JobSpecTyped (job : PrintingJob) : Prop :=
  0 < job.quantity ∧ 0 ≤ job.numberOfColors
    ∧ 0 ≤ job.customSheetWidth ∧ 0 ≤ job.customSheetHeight
    ∧ 0 ≤ job.paperGsm ∧ 0 ≤ job.paperCostPerKg
    ∧ 0 ≤ job.paperCostIncreasePerGsm
    ∧ (∀ p ∈ job.customCostMatrix.getD [], 0 ≤ p.2)
    ∧ 0 ≤ job.designSetupFee ∧ 0 ≤ job.plateCost ∧ 0 ≤ job.proofingCharges
    ∧ 0 ≤ job.fullPrintingCost ∧ 0 ≤ job.pressHourlyRate
    ∧ 0 ≤ job.estimatedPrintRunTime ∧ 0 ≤ job.makeReadyTime
    ∧ 0 ≤ job.wastagePercentage
    ∧ 0 ≤ job.numberOfFolds ∧ 0 ≤ job.numberOfCuts
    ∧ 0 ≤ job.packagingDeliveryCost
    ∧ 0 ≤ job.taxPercentage ∧ 0 ≤ job.discountPercentage
    ∧ 0 ≤ job.rushFeePercentage

instance (job : PrintingJob) : Decidable (JobSpecTyped job) := by
  unfold JobSpecTyped
  infer_instance

/-- The spec's semantic typing of a price-list settings snapshot: every
catalog cost and lamination rate is non-negative. -/
def SettingsSpecTyped (s : SettingsStore) : Prop :=
  (∀ p ∈ s.paperTypes, 0 ≤ p.costPerSheet)
    ∧ (∀ b ∈ s.bindingOptions, 0 ≤ b.baseCost ∧ 0 ≤ b.perUnitCost)
    ∧ 0 ≤ s.laminationCosts.matt ∧ 0 ≤ s.laminationCosts.gloss
    ∧ 0 ≤ s.laminationCosts.thermalMatt ∧ 0 ≤ s.laminationCosts.thermalGloss

instance (s : SettingsStore) : Decidable (SettingsSpecTyped s) := by
  unfold SettingsSpecTyped
  infer_instance

/-- `BINDING_OPTIONS` (src/data/printingOptions.ts): the default binding
catalog, with only the fields the engine reads. -/
def BINDING_OPTIONS : List BindingOption :=
  [ { id := "saddle-stitch", baseCost := 3000, perUnitCost := 10 },
    { id := "perfect-binding", baseCost := 10000, perUnitCost := 50 },
    { id := "spiral-binding", baseCost := 5000, perUnitCost := 30 },
    { id := "hardcover", baseCost := 20000, perUnitCost := 200 } ]

/-- A settings snapshot holding the repository's default catalog data:
generated paper types all carry `costPerSheet = 0` in the latest revision, so
an empty legacy list is observationally the same for the engine; binding
options and lamination costs are the source defaults. -/
def exampleSettings : SettingsStore :=
  { paperTypes := []
    bindingOptions := BINDING_OPTIONS
    measurementUnit := MeasurementUnit.mm
    laminationCosts := DEFAULT_LAMINATION_COSTS }

/-- A job mirroring `DEFAULT_PRINTING_JOB` (src/models/PrintingJob.ts), with
the earlier revision's hourly press fields at their revision defaults. -/
def baseJob : PrintingJob :=
  { quantity := 500
    numberOfColors := 4
    isDoubleSided := false
    sheetSizeId := "a4"
    customSheetWidth := 0
    customSheetHeight := 0
    paperTypeId := "coated-gloss-150"
    paperGsm := 150
    paperSizeId := Option.some "a4"
    gsmPriceMode := GsmPriceMode.flat
    paperCostPerKg := 150
    paperCostIncreasePerGsm := 1/2
    customCostMatrix := Option.none
    designSetupFee := 0
    plateCost := 25
    proofingCharges := 15
    fullPrintingCost := 1000
    pressHourlyRate := 120
    estimatedPrintRunTime := 1
    makeReadyTime := 1/2
    wastagePercentage := 0
    foldingRequired := false
    numberOfFolds := 0
    cuttingRequired := false
    numberOfCuts := 0
    bindingOptionId := Option.none
    laminationType := LaminationType.none
    isDoubleSidedLamination := false
    embossingRequired := false
    foilingRequired := false
    packagingDeliveryCost := 0
    taxPercentage := 18
    discountPercentage := 0
    rushFeePercentage := 0 }

/-- The spec's lamination example: A4 sheet, matt lamination, quantity 100,
single-sided. -/
def laminationExampleJob : PrintingJob :=
  { baseJob with laminationType := LaminationType.matt, quantity := 100 }

/-! ## Claims -/

/-- C5: for all inputs in flat pricing mode, the cost-per-sheet operation
returns exactly `(width/1000) * (height/1000) * gsm/1000 * costPerKg`; in
particular a GSM of zero or a zero dimension yields zero cost (the operation
is total: no division by an input, no error path). -/
theorem C5_flat_mode_formula (w h gsm costPerKg inc baseGsm : ℚ)
    (cm : Option (List (ℚ × ℚ))) :
    calculateCostPerSheet w h gsm costPerKg GsmPriceMode.flat inc baseGsm cm
        = (w / 1000) * (h / 1000) * gsm / 1000 * costPerKg
      ∧ calculateCostPerSheet w h 0 costPerKg GsmPriceMode.flat inc baseGsm cm
        = 0
      ∧ calculateCostPerSheet 0 h gsm costPerKg GsmPriceMode.flat inc baseGsm
        cm = 0
      ∧ calculateCostPerSheet w 0 gsm costPerKg GsmPriceMode.flat inc baseGsm
        cm = 0 := by
  refine ⟨?_, ?_, ?_, ?_⟩ <;> simp [calculateCostPerSheet]

/-- C1: in `custom` pricing mode the effective cost per kg is the custom
matrix's entry for the given GSM when present, and the supplied base
`costPerKg` when the GSM key is absent; the cost is the sheet weight in kg
times that effective rate.  (Proved of the spec-modelled custom branch; see
`customEffectiveCostPerKg`.) -/
theorem C1_custom_mode_lookup_fallback (w h gsm costPerKg inc baseGsm : ℚ)
    (m : List (ℚ × ℚ)) :
    (∀ c : ℚ, matrixLookup m gsm = Option.some c →
        calculateCostPerSheet w h gsm costPerKg GsmPriceMode.custom inc baseGsm
            (Option.some m)
          = (w / 1000) * (h / 1000) * gsm / 1000 * c)
      ∧ (matrixLookup m gsm = Option.none →
        calculateCostPerSheet w h gsm costPerKg GsmPriceMode.custom inc baseGsm
            (Option.some m)
          = (w / 1000) * (h / 1000) * gsm / 1000 * costPerKg) := by
  constructor
  · intro c hc
    simp [calculateCostPerSheet, customEffectiveCostPerKg, hc]
  · intro hc
    simp [calculateCostPerSheet, customEffectiveCostPerKg, hc]

/-- Witness for C1 at concrete inputs: an A4 sheet at 150 GSM with a matrix
holding the 150 key at 160 uses 160; at 90 GSM (key absent) it falls back to
the base 150 per kg. -/
theorem C1_custom_mode_lookup_fallback_witness :
    calculateCostPerSheet 210 297 150 150 GsmPriceMode.custom 0 80
        (Option.some [(150, 160)])
      = (210 / 1000) * (297 / 1000) * 150 / 1000 * 160
    ∧ calculateCostPerSheet 210 297 90 150 GsmPriceMode.custom 0 80
        (Option.some [(150, 160)])
      = (210 / 1000) * (297 / 1000) * 90 / 1000 * 150 :=
  ⟨(C1_custom_mode_lookup_fallback 210 297 150 150 0 80 [(150, 160)]).1 160
      (by decide),
   (C1_custom_mode_lookup_fallback 210 297 90 150 0 80 [(150, 160)]).2
      (by decide)⟩

/-- C4: for every job and settings snapshot, the breakdown satisfies exactly
`subtotal = materialCost + prePressSetupCost + pressCost + finishingCost` and
`grandTotal = subtotal + taxAmount - discount + rushFee`, with tax, discount
and rush fee each `subtotal * (percentage / 100)` computed independently off
the same subtotal. -/
theorem C4_subtotal_grandtotal_invariant (job : PrintingJob)
    (settings : SettingsStore) :
    (calculateTotalCost job settings).subtotal
        = (calculateTotalCost job settings).materialCost
          + (calculateTotalCost job settings).prePressSetupCost
          + (calculateTotalCost job settings).pressCost
          + (calculateTotalCost job settings).finishingCost
      ∧ (calculateTotalCost job settings).grandTotal
        = (calculateTotalCost job settings).subtotal
          + (calculateTotalCost job settings).taxAmount
          - (calculateTotalCost job settings).discount
          + (calculateTotalCost job settings).rushFee
      ∧ (calculateTotalCost job settings).taxAmount
        = (calculateTotalCost job settings).subtotal
          * (job.taxPercentage / 100)
      ∧ (calculateTotalCost job settings).discount
        = (calculateTotalCost job settings).subtotal
          * (job.discountPercentage / 100)
      ∧ (calculateTotalCost job settings).rushFee
        = (calculateTotalCost job settings).subtotal
          * (job.rushFeePercentage / 100) :=
  ⟨rfl, rfl, rfl, rfl, rfl⟩

/-- C2 counterexample: on the latest engine revision, a job whose hourly
fields are populated (makeReadyTime 1, run time 1, rate 100) but whose
`fullPrintingCost` is zero gets `pressCost = 0`, not the hourly-model value
200 — the engine never selects a strategy by which fields are populated. -/
theorem C2_counterexample :
    (calculateTotalCost
        { baseJob with
            makeReadyTime := 1, estimatedPrintRunTime := 1,
            pressHourlyRate := 100, fullPrintingCost := 0 }
        exampleSettings).pressCost = 0
    ∧ ((1 : ℚ) + 1) * 100 = 200 := by
  constructor
  · rfl
  · norm_num

/-- C2 amended: each engine revision implements exactly one press-cost
strategy, unconditionally.  The latest revision always returns the job's
`fullPrintingCost`; the earlier revision always returns
`(makeReadyTime + estimatedPrintRunTime) * pressHourlyRate`.  The strategy is
fixed by the revision, not chosen per call from the populated fields. -/
theorem C2_press_cost_models (job : PrintingJob) (settings : SettingsStore) :
    (calculateTotalCost job settings).pressCost = job.fullPrintingCost
      ∧ (calculateTotalCostHourly job settings).pressCost
        = (job.makeReadyTime + job.estimatedPrintRunTime)
          * job.pressHourlyRate :=
  ⟨rfl, rfl⟩

/-- C8: the engine is total in the quantity: `costPerUnit` is zero when the
quantity is zero (no exception path exists), and equals
`grandTotal / quantity` when the quantity is positive. -/
theorem C8_cost_per_unit (job : PrintingJob) (settings : SettingsStore) :
    (job.quantity = 0 → (calculateTotalCost job settings).costPerUnit = 0)
      ∧ (0 < job.quantity →
        (calculateTotalCost job settings).costPerUnit
          = (calculateTotalCost job settings).grandTotal / job.quantity) := by
  constructor
  · intro h
    show (if job.quantity > 0 then _ / job.quantity else 0) = 0
    rw [if_neg]
    rw [h]
    exact lt_irrefl 0
  · intro h
    show (if job.quantity > 0 then _ / job.quantity else 0) = _
    rw [if_pos h]
    rfl

/-- Witness for C8: a zero-quantity job yields `costPerUnit = 0`, and the
default 500-unit job yields `grandTotal / 500`. -/
theorem C8_cost_per_unit_witness :
    (calculateTotalCost { baseJob with quantity := 0 }
        exampleSettings).costPerUnit = 0
    ∧ (calculateTotalCost baseJob exampleSettings).costPerUnit
      = (calculateTotalCost baseJob exampleSettings).grandTotal / 500 :=
  ⟨(C8_cost_per_unit { baseJob with quantity := 0 } exampleSettings).1 rfl,
   (C8_cost_per_unit baseJob exampleSettings).2 (by norm_num [baseJob])⟩

/-- C10: the breakdown's `additionalCosts` field is the job's
`packagingDeliveryCost` verbatim; the same packaging amount is one addend of
`finishingCost`; and the subtotal sums material, pre-press, press and
finishing only — so packaging enters the subtotal exactly once (through
finishing) and `additionalCosts` is reported without being added again. -/
theorem C10_packaging_counted_once (job : PrintingJob)
    (settings : SettingsStore) :
    (calculateTotalCost job settings).additionalCosts
        = job.packagingDeliveryCost
      ∧ (calculateTotalCost job settings).finishingCost
        = foldingCost job + cuttingCost job + bindingCost job settings
          + laminationCost job settings + embossingCost job + foilingCost job
          + job.packagingDeliveryCost
      ∧ (calculateTotalCost job settings).subtotal
        = (calculateTotalCost job settings).materialCost
          + (calculateTotalCost job settings).prePressSetupCost
          + (calculateTotalCost job settings).pressCost
          + (foldingCost job + cuttingCost job + bindingCost job settings
             + laminationCost job settings + embossingCost job
             + foilingCost job)
          + job.packagingDeliveryCost := by
  refine ⟨rfl, rfl, ?_⟩
  have hsub : (calculateTotalCost job settings).subtotal
      = (calculateTotalCost job settings).materialCost
        + (calculateTotalCost job settings).prePressSetupCost
        + (calculateTotalCost job settings).pressCost
        + (calculateTotalCost job settings).finishingCost := rfl
  have hfin : (calculateTotalCost job settings).finishingCost
      = foldingCost job + cuttingCost job + bindingCost job settings
        + laminationCost job settings + embossingCost job + foilingCost job
        + job.packagingDeliveryCost := rfl
  rw [hsub, hfin]
  ring

/-! Shared non-negativity lemmas for the breakdown fields. -/

theorem matrixLookup_mem {m : List (ℚ × ℚ)} {g c : ℚ}
    (hml : matrixLookup m g = Option.some c) : ∃ p ∈ m, p.2 = c := by
  induction m with
  | nil => simp [matrixLookup] at hml
  | cons p rest ih =>
    obtain ⟨k, v⟩ := p
    rw [matrixLookup] at hml
    by_cases hg : g = k
    · rw [if_pos hg] at hml
      exact ⟨(k, v), List.mem_cons_self _ _, Option.some.inj hml⟩
    · rw [if_neg hg] at hml
      obtain ⟨q, hq, hqc⟩ := ih hml
      exact ⟨q, List.mem_cons_of_mem _ hq, hqc⟩

theorem customEffectiveCostPerKg_nonneg (cm : Option (List (ℚ × ℚ)))
    (gsm costPerKg : ℚ) (hk : 0 ≤ costPerKg)
    (hcm : ∀ p ∈ cm.getD [], 0 ≤ p.2) :
    0 ≤ customEffectiveCostPerKg cm gsm costPerKg := by
  cases cm with
  | none => exact hk
  | some m =>
    simp only [customEffectiveCostPerKg]
    cases hml : matrixLookup m gsm with
    | none => exact hk
    | some c =>
      obtain ⟨p, hp, hpc⟩ := matrixLookup_mem hml
      have hv := hcm p (by simpa using hp)
      rw [hpc] at hv
      exact hv

theorem calculateCostPerSheet_nonneg (w h gsm costPerKg : ℚ)
    (mode : GsmPriceMode) (inc baseGsm : ℚ) (cm : Option (List (ℚ × ℚ)))
    (hw : 0 ≤ w) (hh : 0 ≤ h) (hg : 0 ≤ gsm) (hk : 0 ≤ costPerKg)
    (hi : 0 ≤ inc) (hcm : ∀ p ∈ cm.getD [], 0 ≤ p.2) :
    0 ≤ calculateCostPerSheet w h gsm costPerKg mode inc baseGsm cm := by
  simp only [calculateCostPerSheet]
  apply mul_nonneg
  · have h1 : (0:ℚ) ≤ w / 1000 := div_nonneg hw (by norm_num)
    have h2 : (0:ℚ) ≤ h / 1000 := div_nonneg hh (by norm_num)
    exact div_nonneg (mul_nonneg (mul_nonneg h1 h2) hg) (by norm_num)
  · cases mode with
    | flat => exact hk
    | slope =>
      dsimp only
      split
      · next hgt =>
        have h1 : (0:ℚ) ≤ gsm - baseGsm := le_of_lt (sub_pos.2 hgt)
        exact add_nonneg hk (mul_nonneg h1 hi)
      · exact hk
    | custom => exact customEffectiveCostPerKg_nonneg cm gsm costPerKg hk hcm

theorem sheet_sizes_dims_nonneg :
    ∀ s ∈ SHEET_SIZES, 0 ≤ s.width ∧ 0 ≤ s.height := by decide

theorem rawSheetDims_cases (job : PrintingJob) {w h : ℚ}
    (hd : rawSheetDims job = Option.some (w, h)) :
    (w = job.customSheetWidth ∧ h = job.customSheetHeight)
      ∨ ∃ s ∈ SHEET_SIZES, w = s.width ∧ h = s.height := by
  unfold rawSheetDims at hd
  split at hd
  · left
    simp only [Option.some.injEq, Prod.mk.injEq] at hd
    exact ⟨hd.1.symm, hd.2.symm⟩
  · cases hps : job.paperSizeId with
    | none => rw [hps] at hd; simp at hd
    | some sid =>
      rw [hps] at hd
      simp only at hd
      unfold standardSheetDims at hd
      cases hf : SHEET_SIZES.find? (fun s => s.id == sid) with
      | none => rw [hf] at hd; simp at hd
      | some s =>
        rw [hf] at hd
        simp only [Option.some.injEq, Prod.mk.injEq] at hd
        right
        refine ⟨s, List.mem_of_find?_eq_some hf, ?_⟩
        exact ⟨hd.1.symm, hd.2.symm⟩

theorem resolvedSheetDims_cases (job : PrintingJob) {w h : ℚ}
    (hd : resolvedSheetDims job = Option.some (w, h)) :
    (w = job.customSheetWidth ∧ h = job.customSheetHeight)
      ∨ ∃ s ∈ SHEET_SIZES, w = s.width ∧ h = s.height := by
  unfold resolvedSheetDims at hd
  cases hraw : rawSheetDims job with
  | none => rw [hraw] at hd; simp at hd
  | some wh =>
    obtain ⟨w1, h1⟩ := wh
    rw [hraw] at hd
    simp only at hd
    split at hd
    · simp only [Option.some.injEq, Prod.mk.injEq] at hd
      rw [← hd.1, ← hd.2]
      exact rawSheetDims_cases job hraw
    · exact absurd hd (by simp)

theorem resolvedSheetDims_nonneg (job : PrintingJob)
    (hcw : 0 ≤ job.customSheetWidth) (hch : 0 ≤ job.customSheetHeight)
    {w h : ℚ} (hd : resolvedSheetDims job = Option.some (w, h)) :
    0 ≤ w ∧ 0 ≤ h := by
  rcases resolvedSheetDims_cases job hd with ⟨hw1, hh1⟩ | ⟨s, hs, hw1, hh1⟩
  · exact ⟨hw1 ▸ hcw, hh1 ▸ hch⟩
  · have hdim := sheet_sizes_dims_nonneg s hs
    exact ⟨hw1 ▸ hdim.1, hh1 ▸ hdim.2⟩

theorem jobCostPerSheet_nonneg (job : PrintingJob) (settings : SettingsStore)
    (hjob : JobSpecTyped job) (hs : SettingsSpecTyped settings) :
    0 ≤ jobCostPerSheet job settings := by
  have hbase : 0 ≤ (match
      settings.paperTypes.find? (fun p => p.id == job.paperTypeId) with
    | Option.some p => p.costPerSheet
    | Option.none => (0:ℚ)) := by
    cases hf : settings.paperTypes.find? (fun p => p.id == job.paperTypeId)
      with
    | none => norm_num
    | some p => exact hs.1 p (List.mem_of_find?_eq_some hf)
  obtain ⟨hq, hnc, hcw, hch, hpg, hpk, hpi, hcmat, hrest⟩ := hjob
  simp only [jobCostPerSheet]
  split
  · cases hd : resolvedSheetDims job with
    | none => exact hbase
    | some wh =>
      obtain ⟨w, h⟩ := wh
      dsimp only
      split
      · obtain ⟨hw0, hh0⟩ := resolvedSheetDims_nonneg job hcw hch hd
        apply calculateCostPerSheet_nonneg _ _ _ _ _ _ _ _ hw0 hh0 hpg _ hpi
          hcmat
        split
        · norm_num
        · exact hpk
      · exact hbase
  · exact hbase

/-- C3 counterexample: the claim's hypotheses (positive quantity,
non-negative percentages, amounts and rates) admit a discount percentage of
200, and the default job with no paper-matrix pricing then gets a strictly
negative `grandTotal`: the code subtracts `subtotal * 2` from a positive
subtotal. -/
theorem C3_counterexample :
    JobSpecTyped { baseJob with paperGsm := 0, discountPercentage := 200 }
    ∧ SettingsSpecTyped exampleSettings
    ∧ (calculateTotalCost
        { baseJob with paperGsm := 0, discountPercentage := 200 }
        exampleSettings).grandTotal < 0 := by
  refine ⟨by norm_num [JobSpecTyped, baseJob], ?_, ?_⟩
  · norm_num [SettingsSpecTyped, exampleSettings, BINDING_OPTIONS,
      DEFAULT_LAMINATION_COSTS]
  · norm_num [calculateTotalCost, jobCostPerSheet, finishingCostOf,
      foldingCost, cuttingCost, bindingCost, selectedBinding, laminationCost,
      embossingCost, foilingCost, baseJob, exampleSettings]

/-- C3 amended: for every job satisfying the spec's semantic types whose
discount percentage additionally does not exceed 100, and every settings
snapshot with non-negative catalog costs and rates, every field of the
returned breakdown is non-negative.  (The bound on the discount is forced by
the counterexample: a discount above 100% of subtotal drives `grandTotal`,
and with it `costPerUnit`, negative.) -/
theorem C3_breakdown_nonneg (job : PrintingJob) (settings : SettingsStore)
    (hjob : JobSpecTyped job) (hd100 : job.discountPercentage ≤ 100)
    (hs : SettingsSpecTyped settings) :
    0 ≤ (calculateTotalCost job settings).materialCost
    ∧ 0 ≤ (calculateTotalCost job settings).prePressSetupCost
    ∧ 0 ≤ (calculateTotalCost job settings).pressCost
    ∧ 0 ≤ (calculateTotalCost job settings).finishingCost
    ∧ 0 ≤ (calculateTotalCost job settings).additionalCosts
    ∧ 0 ≤ (calculateTotalCost job settings).subtotal
    ∧ 0 ≤ (calculateTotalCost job settings).taxAmount
    ∧ 0 ≤ (calculateTotalCost job settings).discount
    ∧ 0 ≤ (calculateTotalCost job settings).rushFee
    ∧ 0 ≤ (calculateTotalCost job settings).grandTotal
    ∧ 0 ≤ (calculateTotalCost job settings).costPerUnit := by
  have hcps := jobCostPerSheet_nonneg job settings hjob hs
  obtain ⟨hq, hnc, hcw, hch, hpg, hpk, hpi, hcmat, hds, hplate, hproof,
    hfull, hphr, hept, hmrt, hwp, hnfold, hncut, hpack, htaxp, hdiscp,
    hrushp⟩ := hjob
  obtain ⟨hspt, hsbo, hsm, hsg, hstm, hstg⟩ := hs
  have h100 : (0:ℚ) ≤ 100 := by norm_num
  have hqle : (0:ℚ) ≤ job.quantity := le_of_lt hq
  have hsheets : (0:ℚ) ≤ job.quantity
      * (if job.isDoubleSided then (1:ℚ) else 1)
      * (1 + job.wastagePercentage / 100) := by
    have h1 : (0:ℚ) ≤ 1 + job.wastagePercentage / 100 := by
      have := div_nonneg hwp h100
      linarith
    exact mul_nonneg (mul_nonneg hqle (by split <;> norm_num)) h1
  have hmat : 0 ≤ (calculateTotalCost job settings).materialCost := by
    have heq : (calculateTotalCost job settings).materialCost
        = job.quantity * (if job.isDoubleSided then (1:ℚ) else 1)
          * (1 + job.wastagePercentage / 100)
          * jobCostPerSheet job settings := rfl
    rw [heq]
    exact mul_nonneg hsheets hcps
  have hpp : 0 ≤ (calculateTotalCost job settings).prePressSetupCost := by
    have heq : (calculateTotalCost job settings).prePressSetupCost
        = job.designSetupFee + job.plateCost * job.numberOfColors
          * (if job.isDoubleSided then (2:ℚ) else 1)
          + job.proofingCharges := rfl
    rw [heq]
    have h2 : (0:ℚ) ≤ job.plateCost * job.numberOfColors
        * (if job.isDoubleSided then (2:ℚ) else 1) :=
      mul_nonneg (mul_nonneg hplate hnc) (by split <;> norm_num)
    exact add_nonneg (add_nonneg hds h2) hproof
  have hpress : 0 ≤ (calculateTotalCost job settings).pressCost := hfull
  have hfold : 0 ≤ foldingCost job := by
    rw [foldingCost]
    split
    · exact mul_nonneg (mul_nonneg hnfold hqle) (by norm_num)
    · norm_num
  have hcut : 0 ≤ cuttingCost job := by
    rw [cuttingCost]
    split
    · exact mul_nonneg hncut (by norm_num)
    · norm_num
  have hbind : 0 ≤ bindingCost job settings := by
    unfold bindingCost
    cases hb : selectedBinding job settings with
    | none => norm_num
    | some b =>
      have hmem : b ∈ settings.bindingOptions := by
        unfold selectedBinding at hb
        cases hid : job.bindingOptionId with
        | none => rw [hid] at hb; exact absurd hb (by simp)
        | some bid =>
          rw [hid] at hb
          simp only at hb
          exact List.mem_of_find?_eq_some hb
      obtain ⟨h1, h2⟩ := hsbo b hmem
      exact add_nonneg h1 (mul_nonneg h2 hqle)
  have hstored : 0 ≤ laminationStoredCost settings.laminationCosts
      job.laminationType := by
    cases job.laminationType with
    | none => norm_num [laminationStoredCost]
    | matt => exact hsm
    | gloss => exact hsg
    | thermalMatt => exact hstm
    | thermalGloss => exact hstg
  have hrate : 0 ≤ laminationRate settings.laminationCosts
      job.laminationType := by
    unfold laminationRate
    split
    · exact hstored
    · cases job.laminationType <;> norm_num
  have harea : 0 ≤ laminationAreaSqIn job := by
    unfold laminationAreaSqIn
    cases hd : resolvedSheetDims job with
    | none => norm_num
    | some wh =>
      obtain ⟨w, h⟩ := wh
      obtain ⟨hw0, hh0⟩ := resolvedSheetDims_nonneg job hcw hch hd
      exact mul_nonneg (div_nonneg hw0 (by norm_num))
        (div_nonneg hh0 (by norm_num))
  have hlam : 0 ≤ laminationCost job settings := by
    rw [laminationCost]
    split
    · exact div_nonneg
        (mul_nonneg
          (mul_nonneg (mul_nonneg hrate hqle) (by split <;> norm_num)) harea)
        h100
    · norm_num
  have hemb : 0 ≤ embossingCost job := by
    rw [embossingCost]
    split
    · have := mul_nonneg (show (0:ℚ) ≤ 1/5 by norm_num) hqle
      linarith
    · norm_num
  have hfoil : 0 ≤ foilingCost job := by
    rw [foilingCost]
    split
    · have := mul_nonneg (show (0:ℚ) ≤ 3/10 by norm_num) hqle
      linarith
    · norm_num
  have hfin : 0 ≤ (calculateTotalCost job settings).finishingCost := by
    have heq : (calculateTotalCost job settings).finishingCost
        = finishingCostOf job settings := rfl
    rw [heq, finishingCostOf]
    exact add_nonneg (add_nonneg (add_nonneg (add_nonneg
      (add_nonneg (add_nonneg hfold hcut) hbind) hlam) hemb) hfoil) hpack
  have hsub : 0 ≤ (calculateTotalCost job settings).subtotal := by
    have heq : (calculateTotalCost job settings).subtotal
        = (calculateTotalCost job settings).materialCost
          + (calculateTotalCost job settings).prePressSetupCost
          + (calculateTotalCost job settings).pressCost
          + (calculateTotalCost job settings).finishingCost := rfl
    rw [heq]
    exact add_nonneg (add_nonneg (add_nonneg hmat hpp) hpress) hfin
  have htax : 0 ≤ (calculateTotalCost job settings).taxAmount := by
    have heq : (calculateTotalCost job settings).taxAmount
        = (calculateTotalCost job settings).subtotal
          * (job.taxPercentage / 100) := rfl
    rw [heq]
    exact mul_nonneg hsub (div_nonneg htaxp h100)
  have hdisc : 0 ≤ (calculateTotalCost job settings).discount := by
    have heq : (calculateTotalCost job settings).discount
        = (calculateTotalCost job settings).subtotal
          * (job.discountPercentage / 100) := rfl
    rw [heq]
    exact mul_nonneg hsub (div_nonneg hdiscp h100)
  have hrush : 0 ≤ (calculateTotalCost job settings).rushFee := by
    have heq : (calculateTotalCost job settings).rushFee
        = (calculateTotalCost job settings).subtotal
          * (job.rushFeePercentage / 100) := rfl
    rw [heq]
    exact mul_nonneg hsub (div_nonneg hrushp h100)
  have hgrand : 0 ≤ (calculateTotalCost job settings).grandTotal := by
    have heq : (calculateTotalCost job settings).grandTotal
        = (calculateTotalCost job settings).subtotal
          + (calculateTotalCost job settings).taxAmount
          - (calculateTotalCost job settings).discount
          + (calculateTotalCost job settings).rushFee := rfl
    have hdeq : (calculateTotalCost job settings).discount
        = (calculateTotalCost job settings).subtotal
          * (job.discountPercentage / 100) := rfl
    have hdle : (calculateTotalCost job settings).discount
        ≤ (calculateTotalCost job settings).subtotal := by
      rw [hdeq]
      have h1 : job.discountPercentage / 100 ≤ 1 := by linarith
      calc (calculateTotalCost job settings).subtotal
            * (job.discountPercentage / 100)
          ≤ (calculateTotalCost job settings).subtotal * 1 :=
            mul_le_mul_of_nonneg_left h1 hsub
        _ = (calculateTotalCost job settings).subtotal := mul_one _
    rw [heq]
    linarith
  have hcpu : 0 ≤ (calculateTotalCost job settings).costPerUnit := by
    have heq : (calculateTotalCost job settings).costPerUnit
        = if job.quantity > 0 then
            (calculateTotalCost job settings).grandTotal / job.quantity
          else 0 := rfl
    rw [heq, if_pos hq]
    exact div_nonneg hgrand hqle
  exact ⟨hmat, hpp, hpress, hfin, hpack, hsub, htax, hdisc, hrush, hgrand,
    hcpu⟩

/-- Witness for the amended C3 at the default job and default settings. -/
theorem C3_breakdown_nonneg_witness :
    0 ≤ (calculateTotalCost baseJob exampleSettings).materialCost
    ∧ 0 ≤ (calculateTotalCost baseJob exampleSettings).prePressSetupCost
    ∧ 0 ≤ (calculateTotalCost baseJob exampleSettings).pressCost
    ∧ 0 ≤ (calculateTotalCost baseJob exampleSettings).finishingCost
    ∧ 0 ≤ (calculateTotalCost baseJob exampleSettings).additionalCosts
    ∧ 0 ≤ (calculateTotalCost baseJob exampleSettings).subtotal
    ∧ 0 ≤ (calculateTotalCost baseJob exampleSettings).taxAmount
    ∧ 0 ≤ (calculateTotalCost baseJob exampleSettings).discount
    ∧ 0 ≤ (calculateTotalCost baseJob exampleSettings).rushFee
    ∧ 0 ≤ (calculateTotalCost baseJob exampleSettings).grandTotal
    ∧ 0 ≤ (calculateTotalCost baseJob exampleSettings).costPerUnit :=
  C3_breakdown_nonneg baseJob exampleSettings
    (by norm_num [JobSpecTyped, baseJob])
    (by norm_num [baseJob])
    (by norm_num [SettingsSpecTyped, exampleSettings, BINDING_OPTIONS,
      DEFAULT_LAMINATION_COSTS])

/-- C6: in slope mode, with positive width, height, base cost per kg and
slope increase, and a non-negative reference grammage, the cost per sheet is
strictly increasing in GSM above `baseGsm`; and at `gsm = baseGsm` the slope
cost equals the flat cost with the same base `costPerKg`. -/
theorem C6_slope_monotone_and_boundary (w h costPerKg inc baseGsm g1 g2 : ℚ)
    (cm : Option (List (ℚ × ℚ))) :
    (0 < w → 0 < h → 0 < costPerKg → 0 < inc → 0 ≤ baseGsm → baseGsm < g1 →
      g1 < g2 →
      calculateCostPerSheet w h g1 costPerKg GsmPriceMode.slope inc baseGsm cm
        < calculateCostPerSheet w h g2 costPerKg GsmPriceMode.slope inc baseGsm
            cm)
    ∧ calculateCostPerSheet w h baseGsm costPerKg GsmPriceMode.slope inc
        baseGsm cm
      = calculateCostPerSheet w h baseGsm costPerKg GsmPriceMode.flat inc
          baseGsm cm := by
  constructor
  · intro hw hh hk hi hb h1 h2
    have hg1 : g1 > baseGsm := h1
    have hg2 : g2 > baseGsm := lt_trans h1 h2
    simp only [calculateCostPerSheet, if_pos hg1, if_pos hg2]
    have harea : 0 < w / 1000 * (h / 1000) := by positivity
    have hg1pos : 0 < g1 := lt_of_le_of_lt hb h1
    nlinarith [mul_pos harea hg1pos, mul_pos harea (lt_trans hg1pos h2),
      mul_pos (mul_pos harea (sub_pos.2 h2)) hi,
      mul_pos (mul_pos harea (sub_pos.2 h2)) hk,
      mul_pos (mul_pos (mul_pos harea (sub_pos.2 h1)) hi) (sub_pos.2 h2)]
  · simp [calculateCostPerSheet]

/-- Witness for C6: an A4 sheet at base cost 150 per kg and slope 0.5 per GSM
costs strictly less at 100 GSM than at 150 GSM, and at the 80 GSM reference
the slope cost equals the flat cost. -/
theorem C6_slope_monotone_and_boundary_witness :
    calculateCostPerSheet 210 297 100 150 GsmPriceMode.slope (1 / 2) 80
        Option.none
      < calculateCostPerSheet 210 297 150 150 GsmPriceMode.slope (1 / 2) 80
          Option.none
    ∧ calculateCostPerSheet 210 297 80 150 GsmPriceMode.slope (1 / 2) 80
        Option.none
      = calculateCostPerSheet 210 297 80 150 GsmPriceMode.flat (1 / 2) 80
          Option.none :=
  ⟨(C6_slope_monotone_and_boundary 210 297 150 (1 / 2) 80 100 150
      Option.none).1 (by norm_num) (by norm_num) (by norm_num) (by norm_num)
      (by norm_num) (by norm_num) (by norm_num),
   (C6_slope_monotone_and_boundary 210 297 150 (1 / 2) 80 100 150
      Option.none).2⟩

/-- C7: when a lamination type other than `none` is selected and the sheet
dimensions resolve, the lamination contribution to finishing cost equals
`rate * quantity * (isDoubleSidedLamination ? 2 : 1) * areaSqIn / 100` with
`areaSqIn = (widthMm / 25.4) * (heightMm / 25.4)`; the rate is the stored
settings value when that value is truthy (the JS `||`), and otherwise the
hardcoded per-type fallback constants, which coincide with
`DEFAULT_LAMINATION_COSTS`; and that contribution is one addend of the
breakdown's `finishingCost`. -/
theorem C7_lamination_area_formula (job : PrintingJob)
    (settings : SettingsStore) (w h : ℚ)
    (hl : job.laminationType ≠ LaminationType.none)
    (hd : resolvedSheetDims job = Option.some (w, h)) :
    laminationCost job settings
        = laminationRate settings.laminationCosts job.laminationType
          * job.quantity * (if job.isDoubleSidedLamination then 2 else 1)
          * ((w / (127/5)) * (h / (127/5))) / 100
      ∧ (laminationStoredCost settings.laminationCosts job.laminationType ≠ 0
          → laminationRate settings.laminationCosts job.laminationType
            = laminationStoredCost settings.laminationCosts
                job.laminationType)
      ∧ (laminationStoredCost settings.laminationCosts job.laminationType = 0
          → laminationRate settings.laminationCosts job.laminationType
            = laminationStoredCost DEFAULT_LAMINATION_COSTS
                job.laminationType)
      ∧ (calculateTotalCost job settings).finishingCost
        = foldingCost job + cuttingCost job + bindingCost job settings
          + laminationCost job settings + embossingCost job + foilingCost job
          + job.packagingDeliveryCost := by
  refine ⟨?_, ?_, ?_, rfl⟩
  · unfold laminationCost laminationAreaSqIn
    rw [if_pos hl, hd]
  · intro hne
    unfold laminationRate
    rw [if_pos hne]
  · intro hz
    unfold laminationRate
    rw [if_neg (not_not_intro hz)]
    cases ht : job.laminationType with
    | none => exact absurd ht hl
    | matt => norm_num [laminationStoredCost, DEFAULT_LAMINATION_COSTS]
    | gloss => norm_num [laminationStoredCost, DEFAULT_LAMINATION_COSTS]
    | thermalMatt => norm_num [laminationStoredCost, DEFAULT_LAMINATION_COSTS]
    | thermalGloss =>
      norm_num [laminationStoredCost, DEFAULT_LAMINATION_COSTS]

/-- Witness for C7 at the spec's example: A4 (210mm × 297mm), matt rate
0.25, quantity 100, single-sided — the contribution is
`0.25 * 100 * 1 * areaSqIn / 100` and lies strictly between 24.16 and 24.18
(the spec's ≈ 24.17). -/
theorem C7_lamination_area_formula_witness :
    laminationCost laminationExampleJob exampleSettings
      = (1/4 : ℚ) * 100 * 1 * ((210 / (127/5)) * (297 / (127/5))) / 100
    ∧ (2416 : ℚ)/100 < laminationCost laminationExampleJob exampleSettings
    ∧ laminationCost laminationExampleJob exampleSettings < (2418 : ℚ)/100
    := by
  have h := C7_lamination_area_formula laminationExampleJob exampleSettings
    210 297 (by decide) (by decide)
  have hne : laminationStoredCost exampleSettings.laminationCosts
      laminationExampleJob.laminationType ≠ 0 := by
    norm_num [laminationStoredCost, exampleSettings,
      DEFAULT_LAMINATION_COSTS, laminationExampleJob, baseJob]
  have hrate : laminationRate exampleSettings.laminationCosts
      laminationExampleJob.laminationType = 1/4 := by
    rw [h.2.1 hne]
    norm_num [laminationStoredCost, exampleSettings,
      DEFAULT_LAMINATION_COSTS, laminationExampleJob, baseJob]
  have hval : laminationCost laminationExampleJob exampleSettings
      = (1/4 : ℚ) * 100 * 1 * ((210 / (127/5)) * (297 / (127/5))) / 100 := by
    rw [h.1, hrate]
    norm_num [laminationExampleJob, baseJob]
  refine ⟨hval, ?_, ?_⟩
  · rw [hval]; norm_num
  · rw [hval]; norm_num

/-- C9: the engine is deterministic and reads only the job and the
settings-store snapshot components it uses (paper types, binding options,
lamination costs): structurally equal jobs and snapshots — even snapshots
differing in the unread measurement-unit preference — produce structurally
equal breakdowns.  In the embedding the engine takes the snapshot by value
and returns only the breakdown, so it has no way to mutate either input. -/
theorem C9_deterministic (job1 job2 : PrintingJob) (s1 s2 : SettingsStore)
    (hjob : job1 = job2) (hpt : s1.paperTypes = s2.paperTypes)
    (hbo : s1.bindingOptions = s2.bindingOptions)
    (hlc : s1.laminationCosts = s2.laminationCosts) :
    calculateTotalCost job1 s1 = calculateTotalCost job2 s2 := by
  subst hjob
  obtain ⟨pt1, bo1, mu1, lc1⟩ := s1
  obtain ⟨pt2, bo2, mu2, lc2⟩ := s2
  simp only at hpt hbo hlc
  subst hpt
  subst hbo
  subst hlc
  rfl

/-- Witness for C9: the default job against the default snapshot and the same
snapshot with the measurement unit flipped to inches give identical
breakdowns. -/
theorem C9_deterministic_witness :
    calculateTotalCost baseJob exampleSettings
      = calculateTotalCost baseJob
          { exampleSettings with measurementUnit := MeasurementUnit.inch } :=
  C9_deterministic baseJob baseJob exampleSettings
    { exampleSettings with measurementUnit := MeasurementUnit.inch }
    rfl rfl rfl rfl

end OffsetCalc
